import Mathlib

/-!
Shallow embedding of SecureGuard (src/backend/main.py), a FastAPI
content-moderation service, together with theorems checking the
natural-language specification against the code.

Python floats are modelled as exact rationals (ℚ); Python's built-in
`round` (round-half-to-even) is modelled by `pyRound`.  Classifier
pipelines are external collaborators: each is modelled by an `Option`
carrying the labelled scores it would return on the request at hand
(`none` = the classifier failed to load, or errored at call time, which
the code treats identically through its silent `except` handlers).
Database pushes are modelled by a `Store` flag; an exception raised by
the push corresponds to `Store.unavailable`.  A handler that lets an
exception escape would produce `Except.error` (an HTTP 500); a normal
JSON response is `Except.ok`.
-/

namespace SecureGuard

/-- Round half to even, the semantics of Python's built-in `round` on
exact values (used as `round(x)` in the source). -/
def pyRound (q : ℚ) : ℤ :=
  let f := ⌊q⌋
  let frac := q - f
  if frac < 1/2 then f
  else if 1/2 < frac then f + 1
  else if f % 2 = 0 then f else f + 1

/-- Python's `round(x, 2)` (round to two decimal places, half to even). -/
def round2 (q : ℚ) : ℚ := (pyRound (q * 100) : ℚ) / 100

/-- The `next((r['score'] for r in results if r['label'] == label), 0)`
idiom of the source: score of the first result carrying `label`, else 0. -/
def scoreFor (label : String) (results : List (String × ℚ)) : ℚ :=
  match results.find? (fun r => r.1 == label) with
  | some r => r.2
  | none => 0

/-- The variant comparing `r['label'].lower() == label`, used for the
image classifiers in `analyze_media`. -/
def scoreForLower (label : String) (results : List (String × ℚ)) : ℚ :=
  match results.find? (fun r => r.1.toLower == label) with
  | some r => r.2
  | none => 0

/-- Whether the Firebase realtime database accepts the push. -/
inductive Store where
  | ok : Store
  | unavailable : Store
deriving DecidableEq

/-- A `db.reference(...).push(...)` call: raises (`Except.error`) exactly
when the store is unavailable. -/
def pushDb : Store → Except String Unit
  | Store.ok => Except.ok ()
  | Store.unavailable => Except.error "Firebase Error"

/-! ## POST /moderate (src/backend/main.py lines 94-124) -/

/-- The `log_entry` dict built by `moderate_text` (the `timestamp` field,
wall-clock time, is omitted from the model). -/
structure LogEntry where
  platform : String
  user_id : String
  content : String
  risk_score : ℤ
  risk_level : String
deriving DecidableEq

/-- The toxic score `moderate_text` works with: the classifier output's
"toxic" entry when the classifier is available, else the default 0. -/
def toxicOf (classifier : Option (List (String × ℚ))) : ℚ :=
  match classifier with
  | some results => scoreFor "toxic" results
  | none => 0

/-- The pure part of `moderate_text`: default safe values, optional
classification, and construction of `log_entry`. -/
def moderate_core (classifier : Option (List (String × ℚ)))
    (platform user_id content : String) : LogEntry :=
  let state : ℚ × String :=
    match classifier with
    | some results =>
        let toxic_score := scoreFor "toxic" results
        let risk_level := if toxic_score > 7/10 then "Aggressive" else "Calm"
        let risk_level := if toxic_score > 9/10 then "Critical" else risk_level
        (toxic_score, risk_level)
    | none => (0, "Calm")
  { platform := platform
    user_id := user_id
    content := content
    risk_score := pyRound (state.1 * 100)
    risk_level := state.2 }

/-- The `/moderate` handler: builds `log_entry`, attempts the Firebase
push inside `try`/`except` (a push failure is printed and swallowed),
and returns `log_entry`. -/
def moderate_text (classifier : Option (List (String × ℚ)))
    (platform user_id content : String) (store : Store) :
    Except String LogEntry :=
  let log_entry := moderate_core classifier platform user_id content
  match pushDb store with
  | Except.ok _ => Except.ok log_entry
  | Except.error _ => Except.ok log_entry

/-! ## POST /analyze-media (src/backend/main.py lines 126-211) -/

/-- The response dict `res` of `analyze_media` (`timestamp` omitted). -/
structure MediaResult where
  media_type : String
  user_id : String
  authenticity_label : String
  deepfake_probability : ℚ
  abuse_probability : ℚ
  audio_toxicity : ℚ
  ocr_text_toxicity : ℚ
  transcript : String
deriving DecidableEq

/-- An uploaded image: either `cv2.imdecode`/`Image.fromarray` succeed,
or reading/decoding raises (caught by the visual block's `except`). -/
inductive ImageFile where
  | decodes : ImageFile
  | corrupt : ImageFile
deriving DecidableEq

/-- An uploaded audio file: either transcription yields raw text, or the
temp-file/transcription step raises (caught by the audio block's
`except`). -/
inductive AudioFile where
  | transcribes : String → AudioFile
  | failing : AudioFile
deriving DecidableEq

/-- The classifier pipelines global to the process, each `none` when its
load failed (or it errors on this request): the outputs they would give
on the media of the request at hand. -/
structure Models where
  deepfake_classifier : Option (List (String × ℚ))
  image_abuse_classifier : Option (List (String × ℚ))
  transcriber : Bool
  text_classifier : Option (List (String × ℚ))

/-- The default `res` record (lines 133-143). -/
def initRes (user_id context : String) : MediaResult :=
  { media_type := if context = "reel_frame" then "video" else "image"
    user_id := user_id
    authenticity_label := "Real"
    deepfake_probability := 0
    abuse_probability := 0
    audio_toxicity := 0
    ocr_text_toxicity := 0
    transcript := "" }

/-- Section 1, Visual Analysis (lines 145-161): decode the image and run
the deepfake and NSFW classifiers; any exception leaves `res` as it was. -/
def visualSection (m : Models) (image_file : Option ImageFile)
    (res : MediaResult) : MediaResult :=
  match image_file with
  | some ImageFile.decodes =>
      (let res1 :=
        (match m.deepfake_classifier with
         | some df_results =>
             { res with deepfake_probability := round2 (scoreForLower "fake" df_results * 100) }
         | none => res)
       match m.image_abuse_classifier with
       | some ab_results =>
           { res1 with abuse_probability := round2 (scoreForLower "nsfw" ab_results * 100) }
       | none => res1)
  | some ImageFile.corrupt => res
  | none => res

/-- Section 2, Audio Analysis (lines 163-181): entered only when an audio
file is present and the transcriber loaded; transcribe, store the
stripped transcript, and score it when non-empty and the text classifier
is available; any exception leaves `res` as it was at that point. -/
def audioSection (m : Models) (audio_file : Option AudioFile)
    (res : MediaResult) : MediaResult :=
  match audio_file, m.transcriber with
  | some (AudioFile.transcribes raw), true =>
      (let text_content := raw.trim
       let res := { res with transcript := text_content }
       if text_content ≠ "" then
         (match m.text_classifier with
          | some tox_results =>
              { res with audio_toxicity := round2 (scoreFor "toxic" tox_results) }
          | none => res)
       else res)
  | some AudioFile.failing, true => res
  | _, _ => res

/-- Section 3, Decision Logic (lines 183-192), exactly as the source
mutates `res["authenticity_label"]` starting from "Real". -/
def decide_label (df_prob ab_prob audio_tox : ℚ) : String :=
  let df_score := df_prob
  let ab_score := ab_prob
  let au_score := audio_tox * 100
  let label := "Real"
  let label := if df_score > 70 then "Deepfake" else label
  let label := if ab_score > 60 then "Abusive Visuals" else label
  if au_score > 65 then
    (if label = "Deepfake" then "Weaponized Deepfake"
     else "Verbal Abuse/Bullying")
  else label

/-- The `res` record right before the Decision Logic section. -/
def analyze_media_pre (m : Models) (image_file : Option ImageFile)
    (audio_file : Option AudioFile) (user_id context : String) : MediaResult :=
  audioSection m audio_file (visualSection m image_file (initRes user_id context))

/-- The full `res` record returned by `analyze_media`. -/
def analyze_media_core (m : Models) (image_file : Option ImageFile)
    (audio_file : Option AudioFile) (user_id context : String) : MediaResult :=
  let res := analyze_media_pre m image_file audio_file user_id context
  let label := decide_label res.deepfake_probability res.abuse_probability res.audio_toxicity
  { res with authenticity_label := label }

/-- The `/analyze-media` handler: compute `res`, attempt the Firebase
push inside `try`/`except` (a failure is printed and swallowed), return
`res`. -/
def analyze_media (m : Models) (image_file : Option ImageFile)
    (audio_file : Option AudioFile) (user_id context : String)
    (store : Store) : Except String MediaResult :=
  let res := analyze_media_core m image_file audio_file user_id context
  match pushDb store with
  | Except.ok _ => Except.ok res
  | Except.error _ => Except.ok res

/-! ## Definitions taken from the specification's words -/

/-- The media verdict of spec §4.3 stated in the spec's own words (four
ordered rules over percentage-scaled inputs), for comparison with the
label the code computes. -/
def classify_media (deepfake_pct abuse_pct audio_tox_pct : ℚ) : String :=
  let label := "Real"
  let label := if deepfake_pct > 70 then "Deepfake" else label
  let label := if abuse_pct > 60 then "Abusive Visuals" else label
  if audio_tox_pct > 65 then
    (if label = "Deepfake" then "Weaponized Deepfake"
     else "Verbal Abuse/Bullying")
  else label

/-- Modelled from the spec: the full-formula Risk Engine `compute_risk`
of §4.1 is absent from src/ (src/backend/main.py holds only the
simplified variant of §4.4); this follows the spec's formula and level
mapping verbatim. -/
def compute_risk (toxicity : ℚ)
    (restricted_hits prior_warnings repeated_target : ℕ) : ℤ × String :=
  let raw : ℚ := toxicity * 40 + restricted_hits * 25
    + prior_warnings * 5 + repeated_target * 15
  let score := min (pyRound raw) 100
  let level :=
    if score ≤ 30 then "Calm"
    else if score ≤ 60 then "Aggressive"
    else "Escalating"
  (score, level)

/-- The per-user rolling counters relevant to the rolling-average
invariant (spec §3 UserState, restricted to the fields §4.2's average
update touches). -/
structure UserState where
  total_scanned : ℕ
  avg_toxicity : ℚ
deriving DecidableEq

/-- Modelled from the spec: the User State update of §4.2 is absent from
src/; this follows the spec's rules `total_scanned' = total_scanned + 1`
and `avg_toxicity' = ((avg_toxicity * (total_scanned'-1)) + toxicity) /
total_scanned'`. -/
def update_user_state (s : UserState) (toxicity : ℚ) : UserState :=
  let newTotal := s.total_scanned + 1
  { total_scanned := newTotal
    avg_toxicity :=
      (s.avg_toxicity * ((newTotal : ℚ) - 1) + toxicity) / (newTotal : ℚ) }

/-- N sequential user-state updates with the given toxicity values. -/
def run_updates (s : UserState) (ts : List ℚ) : UserState :=
  ts.foldl update_user_state s

/-- The state of a user never seen before. -/
def initialUserState : UserState :=
  { total_scanned := 0, avg_toxicity := 0 }

/-! ## Helper lemmas -/

theorem pyRound_eq_floor_or (q : ℚ) : pyRound q = ⌊q⌋ ∨ pyRound q = ⌊q⌋ + 1 := by
  unfold pyRound
  dsimp only
  split_ifs <;> simp

theorem pyRound_nonneg {q : ℚ} (h : 0 ≤ q) : 0 ≤ pyRound q := by
  have hf : (0:ℤ) ≤ ⌊q⌋ := Int.floor_nonneg.mpr h
  rcases pyRound_eq_floor_or q with h1 | h1 <;> omega

theorem pyRound_le {q : ℚ} {n : ℤ} (h : q ≤ (n : ℚ)) : pyRound q ≤ n := by
  have hf : ⌊q⌋ ≤ n := by
    have h2 := Int.floor_mono h
    rwa [Int.floor_intCast] at h2
  unfold pyRound
  dsimp only
  split_ifs with h1 h2 h3
  · exact hf
  all_goals first
    | exact hf
    | · have hlt : (⌊q⌋ : ℚ) < (n : ℚ) := by
          have hge : (1:ℚ)/2 ≤ q - ⌊q⌋ := not_lt.mp h1
          linarith
        have : ⌊q⌋ < n := by exact_mod_cast hlt
        omega

theorem moderate_core_risk_score (c : Option (List (String × ℚ)))
    (p u ct : String) :
    (moderate_core c p u ct).risk_score = pyRound (toxicOf c * 100) := by
  cases c <;> rfl

theorem moderate_text_returns (c : Option (List (String × ℚ)))
    (p u ct : String) (store : Store) :
    moderate_text c p u ct store = Except.ok (moderate_core c p u ct) := by
  cases store <;> rfl

theorem riskLevel_iff (s : ℤ) :
    ((if s ≤ 30 then "Calm" else if s ≤ 60 then "Aggressive" else "Escalating")
        = "Calm" ↔ s ≤ 30)
    ∧ ((if s ≤ 30 then "Calm" else if s ≤ 60 then "Aggressive" else "Escalating")
        = "Aggressive" ↔ 30 < s ∧ s ≤ 60)
    ∧ ((if s ≤ 30 then "Calm" else if s ≤ 60 then "Aggressive" else "Escalating")
        = "Escalating" ↔ 60 < s) := by
  refine ⟨?_, ?_, ?_⟩ <;> split_ifs with ha hb <;>
    first
      | exact iff_of_true rfl (by omega)
      | exact iff_of_false (by decide) (by omega)

theorem update_total (s : UserState) (t : ℚ) :
    (update_user_state s t).total_scanned = s.total_scanned + 1 := rfl

theorem run_updates_nil (s : UserState) : run_updates s [] = s := rfl

theorem run_updates_cons (s : UserState) (a : ℚ) (l : List ℚ) :
    run_updates s (a :: l) = run_updates (update_user_state s a) l := rfl

theorem update_mass (s : UserState) (t : ℚ) :
    (update_user_state s t).avg_toxicity
        * ((update_user_state s t).total_scanned : ℚ)
      = s.avg_toxicity * (s.total_scanned : ℚ) + t := by
  unfold update_user_state
  dsimp only
  rw [div_mul_cancel₀]
  · push_cast
    ring
  · push_cast
    positivity

theorem run_updates_total (ts : List ℚ) : ∀ s : UserState,
    (run_updates s ts).total_scanned = s.total_scanned + ts.length := by
  induction ts with
  | nil => intro s; simp [run_updates_nil]
  | cons a l ih =>
      intro s
      rw [run_updates_cons, ih, update_total]
      simp only [List.length_cons]
      omega

theorem run_updates_mass (ts : List ℚ) : ∀ s : UserState,
    (run_updates s ts).avg_toxicity * ((run_updates s ts).total_scanned : ℚ)
      = s.avg_toxicity * (s.total_scanned : ℚ) + ts.sum := by
  induction ts with
  | nil => intro s; simp [run_updates_nil]
  | cons a l ih =>
      intro s
      rw [run_updates_cons, ih, update_mass]
      simp only [List.sum_cons]
      ring

theorem visual_none (m : Models) (r : MediaResult) :
    visualSection m none r = r := rfl

theorem visual_corrupt (m : Models) (r : MediaResult) :
    visualSection m (some ImageFile.corrupt) r = r := rfl

theorem audio_none (m : Models) (r : MediaResult) :
    audioSection m none r = r := by
  rcases m with ⟨df, ab, tr, txt⟩
  cases tr <;> rfl

theorem audio_failing (m : Models) (r : MediaResult) :
    audioSection m (some AudioFile.failing) r = r := by
  rcases m with ⟨df, ab, tr, txt⟩
  cases tr <;> rfl

theorem audio_no_transcriber (df ab txt) (aud : Option AudioFile)
    (r : MediaResult) :
    audioSection ⟨df, ab, false, txt⟩ aud r = r := by
  rcases aud with _ | a
  · rfl
  · cases a <;> rfl

theorem visual_shape (m : Models) (img : Option ImageFile) (r : MediaResult) :
    ∃ d a, visualSection m img r
      = { r with deepfake_probability := d, abuse_probability := a } := by
  rcases m with ⟨df, ab, tr, txt⟩
  rcases img with _ | f
  · exact ⟨r.deepfake_probability, r.abuse_probability, rfl⟩
  · cases f
    · cases df <;> cases ab <;> exact ⟨_, _, rfl⟩
    · exact ⟨r.deepfake_probability, r.abuse_probability, rfl⟩

theorem audio_shape (m : Models) (aud : Option AudioFile) (r : MediaResult) :
    ∃ tA tox, audioSection m aud r
      = { r with transcript := tA, audio_toxicity := tox } := by
  rcases m with ⟨df, ab, tr, txt⟩
  rcases aud with _ | a
  · cases tr <;> exact ⟨r.transcript, r.audio_toxicity, rfl⟩
  · cases a with
    | transcribes raw =>
        cases tr
        · exact ⟨r.transcript, r.audio_toxicity, rfl⟩
        · dsimp only [audioSection]
          split_ifs with h
          · cases txt <;> exact ⟨_, _, rfl⟩
          · exact ⟨_, _, rfl⟩
    | failing => cases tr <;> exact ⟨r.transcript, r.audio_toxicity, rfl⟩

theorem audio_preserves_deepfake (m : Models) (aud : Option AudioFile)
    (r : MediaResult) :
    (audioSection m aud r).deepfake_probability = r.deepfake_probability := by
  obtain ⟨tA, tox, h⟩ := audio_shape m aud r
  rw [h]

theorem audio_preserves_abuse (m : Models) (aud : Option AudioFile)
    (r : MediaResult) :
    (audioSection m aud r).abuse_probability = r.abuse_probability := by
  obtain ⟨tA, tox, h⟩ := audio_shape m aud r
  rw [h]

theorem visual_preserves_audio_tox (m : Models) (img : Option ImageFile)
    (r : MediaResult) :
    (visualSection m img r).audio_toxicity = r.audio_toxicity := by
  obtain ⟨d, a, h⟩ := visual_shape m img r
  rw [h]

theorem visual_preserves_transcript (m : Models) (img : Option ImageFile)
    (r : MediaResult) :
    (visualSection m img r).transcript = r.transcript := by
  obtain ⟨d, a, h⟩ := visual_shape m img r
  rw [h]

theorem visual_deepfake_none (ab tr txt) (img : Option ImageFile)
    (r : MediaResult) :
    (visualSection ⟨none, ab, tr, txt⟩ img r).deepfake_probability
      = r.deepfake_probability := by
  rcases img with _ | f
  · rfl
  · cases f
    · cases ab <;> rfl
    · rfl

theorem visual_abuse_none (df tr txt) (img : Option ImageFile)
    (r : MediaResult) :
    (visualSection ⟨df, none, tr, txt⟩ img r).abuse_probability
      = r.abuse_probability := by
  rcases img with _ | f
  · rfl
  · cases f
    · cases df <;> rfl
    · rfl

theorem audio_text_none (df ab tr) (aud : Option AudioFile) (r : MediaResult) :
    (audioSection ⟨df, ab, tr, none⟩ aud r).audio_toxicity
      = r.audio_toxicity := by
  rcases aud with _ | a
  · cases tr <;> rfl
  · cases a with
    | transcribes raw =>
        cases tr
        · rfl
        · dsimp only [audioSection]
          split_ifs with h <;> rfl
    | failing => cases tr <;> rfl

theorem core_fields (m : Models) (img : Option ImageFile)
    (aud : Option AudioFile) (uid ctx : String) :
    (analyze_media_core m img aud uid ctx).deepfake_probability
        = (analyze_media_pre m img aud uid ctx).deepfake_probability
    ∧ (analyze_media_core m img aud uid ctx).abuse_probability
        = (analyze_media_pre m img aud uid ctx).abuse_probability
    ∧ (analyze_media_core m img aud uid ctx).audio_toxicity
        = (analyze_media_pre m img aud uid ctx).audio_toxicity
    ∧ (analyze_media_core m img aud uid ctx).transcript
        = (analyze_media_pre m img aud uid ctx).transcript
    ∧ (analyze_media_core m img aud uid ctx).media_type
        = (analyze_media_pre m img aud uid ctx).media_type :=
  ⟨rfl, rfl, rfl, rfl, rfl⟩

theorem analyze_media_returns (m : Models) (img : Option ImageFile)
    (aud : Option AudioFile) (uid ctx : String) (store : Store) :
    analyze_media m img aud uid ctx store
      = Except.ok (analyze_media_core m img aud uid ctx) := by
  cases store <;> rfl

theorem decide_label_eq_spec (df ab au : ℚ) :
    decide_label df ab au = classify_media df ab (au * 100) := rfl

/-! ## Claim theorems -/

/-- C2: for every toxicity score produced by the text classifier, the
simplified POST /moderate variant returns risk_level "Critical" when
toxic > 0.9, else "Aggressive" when toxic > 0.7, else "Calm", and
risk_score = round(toxic*100). -/
theorem C2_moderate_simplified_scoring :
    ∀ (results : List (String × ℚ)) (p u ct : String) (store : Store),
      moderate_text (some results) p u ct store
          = Except.ok (moderate_core (some results) p u ct)
      ∧ (moderate_core (some results) p u ct).risk_level
          = (if scoreFor "toxic" results > 9/10 then "Critical"
             else if scoreFor "toxic" results > 7/10 then "Aggressive"
             else "Calm")
      ∧ (moderate_core (some results) p u ct).risk_score
          = pyRound (scoreFor "toxic" results * 100) := by
  intro results p u ct store
  exact ⟨moderate_text_returns _ p u ct store, rfl, rfl⟩

/-- C5 (amended): a database push failure on POST /moderate is caught and
swallowed, and the endpoint still returns the normal moderation response
rather than surfacing a server error. -/
theorem C5_store_failure_graceful :
    ∀ (c : Option (List (String × ℚ))) (p u ct : String),
      moderate_text c p u ct Store.unavailable
        = Except.ok (moderate_core c p u ct) :=
  fun _ _ _ _ => rfl

/-- C5 counterexample: on a concrete request with the store unavailable,
POST /moderate returns the ordinary scored log entry, not a server
error, refuting the claim that the write path hard-fails the request. -/
theorem C5_counterexample_no_server_error :
    moderate_text (some [("toxic", (1:ℚ)/2)]) "instagram" "u1" "hello"
        Store.unavailable
      = Except.ok { platform := "instagram", user_id := "u1",
                    content := "hello", risk_score := 50,
                    risk_level := "Calm" } := by
  norm_num [moderate_text, moderate_core, pushDb, scoreFor, pyRound]

/-- C10: the JSON body returned by POST /moderate is identical whether
the database push succeeds or fails, and the request is never aborted. -/
theorem C10_response_independent_of_store :
    ∀ (c : Option (List (String × ℚ))) (p u ct : String),
      moderate_text c p u ct Store.ok = Except.ok (moderate_core c p u ct)
      ∧ moderate_text c p u ct Store.unavailable
          = Except.ok (moderate_core c p u ct) :=
  fun _ _ _ _ => ⟨rfl, rfl⟩

/-- C8: for every toxicity score in [0,1], the risk_score returned by
POST /moderate (which is also the value written to the appended log
entry) is an integer in [0,100]. -/
theorem C8_risk_score_in_range :
    ∀ (c : Option (List (String × ℚ))) (p u ct : String),
      0 ≤ toxicOf c → toxicOf c ≤ 1 →
      0 ≤ (moderate_core c p u ct).risk_score
      ∧ (moderate_core c p u ct).risk_score ≤ 100
      ∧ (∀ store, moderate_text c p u ct store
            = Except.ok (moderate_core c p u ct)) := by
  intro c p u ct h0 h1
  rw [moderate_core_risk_score]
  refine ⟨?_, ?_, fun store => moderate_text_returns c p u ct store⟩
  · exact pyRound_nonneg (by positivity)
  · exact pyRound_le (n := 100) (by push_cast; linarith)

/-- C8 witness: the bounds instantiated at a concrete classifier output
with toxic score 0. -/
theorem C8_witness :
    0 ≤ toxicOf (some [("toxic", 0)]) ∧ toxicOf (some [("toxic", 0)]) ≤ 1
    ∧ 0 ≤ (moderate_core (some [("toxic", 0)]) "p" "u" "c").risk_score
    ∧ (moderate_core (some [("toxic", 0)]) "p" "u" "c").risk_score ≤ 100 :=
  ⟨by decide, by decide,
   (C8_risk_score_in_range (some [("toxic", 0)]) "p" "u" "c"
      (by decide) (by decide)).1,
   (C8_risk_score_in_range (some [("toxic", 0)]) "p" "u" "c"
      (by decide) (by decide)).2.1⟩

/-- C3: the full-formula risk computation (modelled from the spec, absent
from src/) returns risk_score = min(round(toxicity*40 +
restricted_hits*25 + prior_warnings*5 + repeated_target*15), 100), with
level "Calm" for score ≤ 30, "Aggressive" for 30 < score ≤ 60 and
"Escalating" for score > 60, and maps (0.5, 1, 2, 0) to (55,
"Aggressive"). -/
theorem C3_compute_risk_formula :
    ∀ (t : ℚ) (rh pw rt : ℕ), 0 ≤ t → t ≤ 1 →
      (compute_risk t rh pw rt).1
          = min (pyRound (t * 40 + rh * 25 + pw * 5 + rt * 15)) 100
      ∧ ((compute_risk t rh pw rt).2 = "Calm"
          ↔ (compute_risk t rh pw rt).1 ≤ 30)
      ∧ ((compute_risk t rh pw rt).2 = "Aggressive"
          ↔ 30 < (compute_risk t rh pw rt).1 ∧ (compute_risk t rh pw rt).1 ≤ 60)
      ∧ ((compute_risk t rh pw rt).2 = "Escalating"
          ↔ 60 < (compute_risk t rh pw rt).1)
      ∧ compute_risk (1/2) 1 2 0 = (55, "Aggressive") := by
  intro t rh pw rt h0 h1
  refine ⟨rfl, (riskLevel_iff _).1, (riskLevel_iff _).2.1, (riskLevel_iff _).2.2,
    by norm_num [compute_risk, pyRound]⟩

/-- C3 witness: the formula and level mapping instantiated at toxicity 0
with (restricted_hits, prior_warnings, repeated_target) = (1, 2, 0). -/
theorem C3_witness :
    (0:ℚ) ≤ 0 ∧ (0:ℚ) ≤ 1
    ∧ compute_risk (1/2) 1 2 0 = (55, "Aggressive")
    ∧ ((compute_risk 0 1 2 0).2 = "Calm" ↔ (compute_risk 0 1 2 0).1 ≤ 30) :=
  ⟨by decide, by decide,
   (C3_compute_risk_formula 0 1 2 0 (by decide) (by decide)).2.2.2.2,
   (C3_compute_risk_formula 0 1 2 0 (by decide) (by decide)).2.1⟩

/-- C4: after N ≥ 1 updates (modelled from the spec, absent from src/)
with toxicity values t1..tN starting from a fresh user, avg_toxicity is
the arithmetic mean of t1..tN, total_scanned equals N, and each update
increases total_scanned by exactly 1. -/
theorem C4_rolling_average :
    ∀ ts : List ℚ, ts ≠ [] →
      (run_updates initialUserState ts).avg_toxicity
          = ts.sum / (ts.length : ℚ)
      ∧ (run_updates initialUserState ts).total_scanned = ts.length
      ∧ (∀ (s : UserState) (t : ℚ),
          (update_user_state s t).total_scanned = s.total_scanned + 1) := by
  intro ts h
  have htot : (run_updates initialUserState ts).total_scanned = ts.length := by
    rw [run_updates_total]
    simp [initialUserState]
  have hmass := run_updates_mass ts initialUserState
  rw [htot] at hmass
  have hlen : (0:ℚ) < (ts.length : ℚ) := by
    have hl : 0 < ts.length := List.length_pos.mpr h
    exact_mod_cast hl
  refine ⟨?_, htot, fun s t => rfl⟩
  rw [eq_div_iff hlen.ne']
  simpa [initialUserState] using hmass

/-- C4 witness: the rolling-average invariant instantiated at the
two-step sequence [0, 1]. -/
theorem C4_witness :
    ([(0:ℚ), 1] ≠ [])
    ∧ (run_updates initialUserState [(0:ℚ), 1]).avg_toxicity
        = ([(0:ℚ), 1]).sum / (([(0:ℚ), 1]).length : ℚ)
    ∧ (run_updates initialUserState [(0:ℚ), 1]).total_scanned
        = ([(0:ℚ), 1]).length :=
  ⟨by decide, (C4_rolling_average [0, 1] (by decide)).1,
   (C4_rolling_average [0, 1] (by decide)).2.1⟩

/-- C1: the authenticity label returned by POST /analyze-media equals
the result of the four ordered rules of the media verdict logic (spec
§4.3) applied to the returned scores, and the four precedence examples
(deepfake=80, abuse=0, audio=0) → "Deepfake", (80, 70, 0) → "Abusive
Visuals", (80, 0, 70) → "Weaponized Deepfake", (0, 70, 70) → "Verbal
Abuse/Bullying" hold (audio given as audio_toxicity, so 70% = 0.7). -/
theorem C1_media_verdict_precedence :
    (∀ df ab au : ℚ, decide_label df ab au = classify_media df ab (au * 100))
    ∧ (∀ (m : Models) (img : Option ImageFile) (aud : Option AudioFile)
        (uid ctx : String),
        (analyze_media_core m img aud uid ctx).authenticity_label
          = classify_media
              (analyze_media_core m img aud uid ctx).deepfake_probability
              (analyze_media_core m img aud uid ctx).abuse_probability
              ((analyze_media_core m img aud uid ctx).audio_toxicity * 100))
    ∧ (∀ (m : Models) (img : Option ImageFile) (aud : Option AudioFile)
        (uid ctx : String) (store : Store),
        analyze_media m img aud uid ctx store
          = Except.ok (analyze_media_core m img aud uid ctx))
    ∧ decide_label 80 0 0 = "Deepfake"
    ∧ decide_label 80 70 0 = "Abusive Visuals"
    ∧ decide_label 80 0 (7/10) = "Weaponized Deepfake"
    ∧ decide_label 0 70 (7/10) = "Verbal Abuse/Bullying" := by
  refine ⟨decide_label_eq_spec, ?_, analyze_media_returns, ?_, ?_, ?_, ?_⟩
  · intro m img aud uid ctx
    exact decide_label_eq_spec _ _ _
  all_goals norm_num [decide_label]
  all_goals exact fun h => absurd h (by decide)

/-- C6: an unavailable classifier degrades gracefully: POST /moderate
with no text classifier returns toxic score 0, risk_score 0 and
risk_level "Calm"; POST /analyze-media with an unavailable deepfake,
NSFW, toxicity or transcription model leaves the corresponding scores
(deepfake_probability, abuse_probability, audio_toxicity) at 0 and still
returns a response. -/
theorem C6_unavailable_classifier_defaults :
    (∀ (p u ct : String) (store : Store),
        moderate_text none p u ct store
          = Except.ok { platform := p, user_id := u, content := ct,
                        risk_score := 0, risk_level := "Calm" })
    ∧ toxicOf none = 0
    ∧ (∀ ab tr txt (img : Option ImageFile) (aud : Option AudioFile)
          (uid ctx : String),
        (analyze_media_core ⟨none, ab, tr, txt⟩ img aud uid ctx).deepfake_probability
          = 0)
    ∧ (∀ df tr txt (img : Option ImageFile) (aud : Option AudioFile)
          (uid ctx : String),
        (analyze_media_core ⟨df, none, tr, txt⟩ img aud uid ctx).abuse_probability
          = 0)
    ∧ (∀ df ab txt (img : Option ImageFile) (aud : Option AudioFile)
          (uid ctx : String),
        (analyze_media_core ⟨df, ab, false, txt⟩ img aud uid ctx).audio_toxicity
          = 0)
    ∧ (∀ df ab tr (img : Option ImageFile) (aud : Option AudioFile)
          (uid ctx : String),
        (analyze_media_core ⟨df, ab, tr, none⟩ img aud uid ctx).audio_toxicity
          = 0)
    ∧ (∀ (m : Models) (img : Option ImageFile) (aud : Option AudioFile)
          (uid ctx : String) (store : Store),
        analyze_media m img aud uid ctx store
          = Except.ok (analyze_media_core m img aud uid ctx)) := by
  refine ⟨?_, rfl, ?_, ?_, ?_, ?_, analyze_media_returns⟩
  · intro p u ct store
    rw [moderate_text_returns]
    norm_num [moderate_core, pyRound]
  · intro ab tr txt img aud uid ctx
    rw [(core_fields _ _ _ _ _).1]
    unfold analyze_media_pre
    rw [audio_preserves_deepfake, visual_deepfake_none]
    rfl
  · intro df tr txt img aud uid ctx
    rw [(core_fields _ _ _ _ _).2.1]
    unfold analyze_media_pre
    rw [audio_preserves_abuse, visual_abuse_none]
    rfl
  · intro df ab txt img aud uid ctx
    rw [(core_fields _ _ _ _ _).2.2.1]
    unfold analyze_media_pre
    rw [audio_no_transcriber, visual_preserves_audio_tox]
    rfl
  · intro df ab tr img aud uid ctx
    rw [(core_fields _ _ _ _ _).2.2.1]
    unfold analyze_media_pre
    rw [audio_text_none, visual_preserves_audio_tox]
    rfl

/-- C7: a modality whose input is missing or unreadable is skipped with
its scores left at the defaults, the other modality is analyzed exactly
as if the bad one were absent, and the request still returns a full
result. -/
theorem C7_unreadable_modality_skipped :
    (∀ (m : Models) (aud : Option AudioFile) (uid ctx : String),
        analyze_media_core m (some ImageFile.corrupt) aud uid ctx
          = analyze_media_core m none aud uid ctx)
    ∧ (∀ (m : Models) (img : Option ImageFile) (uid ctx : String),
        analyze_media_core m img (some AudioFile.failing) uid ctx
          = analyze_media_core m img none uid ctx)
    ∧ (∀ (m : Models) (aud : Option AudioFile) (uid ctx : String),
        (analyze_media_core m (some ImageFile.corrupt) aud uid ctx).deepfake_probability
            = 0
        ∧ (analyze_media_core m (some ImageFile.corrupt) aud uid ctx).abuse_probability
            = 0)
    ∧ (∀ (m : Models) (img : Option ImageFile) (uid ctx : String),
        (analyze_media_core m img (some AudioFile.failing) uid ctx).audio_toxicity
            = 0
        ∧ (analyze_media_core m img (some AudioFile.failing) uid ctx).transcript
            = "")
    ∧ (∀ (m : Models) (img : Option ImageFile) (aud : Option AudioFile)
          (uid ctx : String) (store : Store),
        analyze_media m img aud uid ctx store
          = Except.ok (analyze_media_core m img aud uid ctx)) := by
  refine ⟨?_, ?_, ?_, ?_, analyze_media_returns⟩
  · intro m aud uid ctx
    unfold analyze_media_core analyze_media_pre
    rw [visual_corrupt, visual_none]
  · intro m img uid ctx
    unfold analyze_media_core analyze_media_pre
    rw [audio_failing, audio_none]
  · intro m aud uid ctx
    constructor
    · rw [(core_fields _ _ _ _ _).1]
      unfold analyze_media_pre
      rw [audio_preserves_deepfake, visual_corrupt]
      rfl
    · rw [(core_fields _ _ _ _ _).2.1]
      unfold analyze_media_pre
      rw [audio_preserves_abuse, visual_corrupt]
      rfl
  · intro m img uid ctx
    constructor
    · rw [(core_fields _ _ _ _ _).2.2.1]
      unfold analyze_media_pre
      rw [audio_failing, visual_preserves_audio_tox]
      rfl
    · rw [(core_fields _ _ _ _ _).2.2.2.1]
      unfold analyze_media_pre
      rw [audio_failing, visual_preserves_transcript]
      rfl

/-- C9: POST /analyze-media with neither an image nor an audio file
returns exactly the default record — label "Real", all scores 0, empty
transcript — and media_type is "video" precisely when context is
"reel_frame", else "image". -/
theorem C9_no_media_default_record :
    ∀ (m : Models) (uid ctx : String) (store : Store),
      analyze_media m none none uid ctx store
          = Except.ok
              { media_type := if ctx = "reel_frame" then "video" else "image",
                user_id := uid, authenticity_label := "Real",
                deepfake_probability := 0, abuse_probability := 0,
                audio_toxicity := 0, ocr_text_toxicity := 0,
                transcript := "" }
      ∧ ((analyze_media_core m none none uid ctx).media_type = "video"
          ↔ ctx = "reel_frame") := by
  intro m uid ctx store
  have hcore : analyze_media_core m none none uid ctx = initRes uid ctx := by
    unfold analyze_media_core analyze_media_pre
    rw [visual_none, audio_none]
    norm_num [decide_label, initRes]
  constructor
  · rw [analyze_media_returns, hcore]
    rfl
  · rw [hcore]
    unfold initRes
    by_cases h : ctx = "reel_frame" <;> simp [h]

end SecureGuard
